import Mathlib

/-!
Verification development for the Krypton_Leads_Scraper repository.

This file gives a shallow embedding, in Lean 4, of the pure core of the
scraper variants found in the repository (turbo_scraper.py, hyper_scraper.py,
ultimate_scraper.py, async_scraper.py, main.py), together with theorems that
settle the specification claims about that core.

Modelling conventions:
- Python strings are Lean String values; the empty string is the absent
  sentinel, exactly as in the source dataclasses.
- Python str.strip() and str.lower() are modelled by executable character-
  list implementations (pyStrip, pyLower) faithful to them on the ASCII
  strings in play.
- Wall-clock timestamps (time.time()) are modelled as integers (seconds);
  expiry comparisons in the source are strict inequalities on real-valued
  seconds and are preserved verbatim.
- Browser / HTTP effects are modelled by passing the observed outcome of the
  effect (element text found, fetch result, cached value) as an explicit
  argument to the embedded function, which then performs exactly the pure
  computation the Python code performs on that outcome.
-/

/-- Whitespace characters removed by Python str.strip(). -/
def pyWhitespace (c : Char) : Bool :=
  c = ' ' || c = '\t' || c = '\n' || c = '\r' || c = '\x0b' || c = '\x0c'

/-- Model of Python str.strip(): remove leading and trailing whitespace. -/
def pyStrip (s : String) : String :=
  ⟨((s.data.dropWhile pyWhitespace).reverse.dropWhile pyWhitespace).reverse⟩

/-- ASCII lower-casing of one character, as Python str.lower() performs on
the ASCII strings handled here. -/
def pyLowerChar (c : Char) : Char :=
  if 'A' ≤ c ∧ c ≤ 'Z' then Char.ofNat (c.toNat + 32) else c

/-- Model of Python str.lower() for the ASCII strings handled here. -/
def pyLower (s : String) : String := ⟨s.data.map pyLowerChar⟩

/-! ### Lead dataclasses

Each scraper variant declares its own lead dataclass with string fields
defaulting to "" and an integer quality score.  The quality computation
`calculate_quality` is modelled as a pure function of the lead returning the
value the method stores into quality_score. -/

/-- TurboLead dataclass (turbo_scraper.py lines 263-286). -/
structure TurboLead where
  name : String := ""
  website : String := ""
  phone : String := ""
  address : String := ""
  email : String := ""
  instagram : String := ""
  facebook : String := ""
  tiktok : String := ""
  twitter : String := ""
  quality_score : Nat := 0
deriving Repr, DecidableEq

/-- TurboLead.calculate_quality (turbo_scraper.py lines 277-286):
name +2, website +2, phone +2, email +2, address +1,
any of instagram/facebook/twitter +1, capped at 10. -/
def TurboLead.calculate_quality (l : TurboLead) : Nat :=
  min ((if l.name ≠ "" then 2 else 0)
      + (if l.website ≠ "" then 2 else 0)
      + (if l.phone ≠ "" then 2 else 0)
      + (if l.email ≠ "" then 2 else 0)
      + (if l.address ≠ "" then 1 else 0)
      + (if l.instagram ≠ "" ∨ l.facebook ≠ "" ∨ l.twitter ≠ "" then 1 else 0))
    10

/-- HyperLead dataclass (hyper_scraper.py lines 300-324). -/
structure HyperLead where
  name : String := ""
  website : String := ""
  phone : String := ""
  address : String := ""
  email : String := ""
  instagram : String := ""
  facebook : String := ""
  tiktok : String := ""
  twitter : String := ""
  quality_score : Nat := 0
  processing_time : Rat := 0
deriving Repr, DecidableEq

/-- HyperLead.calculate_quality (hyper_scraper.py lines 315-324):
name +2, website +3, phone +2, email +3, address +1,
any of instagram/facebook/twitter +1, capped at 10. -/
def HyperLead.calculate_quality (l : HyperLead) : Nat :=
  min ((if l.name ≠ "" then 2 else 0)
      + (if l.website ≠ "" then 3 else 0)
      + (if l.phone ≠ "" then 2 else 0)
      + (if l.email ≠ "" then 3 else 0)
      + (if l.address ≠ "" then 1 else 0)
      + (if l.instagram ≠ "" ∨ l.facebook ≠ "" ∨ l.twitter ≠ "" then 1 else 0))
    10

/-- UltimateLead dataclass (ultimate_scraper.py lines 457-487).  The float
field rating is modelled as a rational; its only use in the quality
computation is the comparison rating > 0, which is exact. -/
structure UltimateLead where
  name : String := ""
  website : String := ""
  phone : String := ""
  address : String := ""
  email : String := ""
  instagram : String := ""
  facebook : String := ""
  tiktok : String := ""
  twitter : String := ""
  rating : Rat := 0
  review_count : Int := 0
  place_id : String := ""
  source : String := "scraping"
  quality_score : Nat := 0
  processing_time : Rat := 0
deriving Repr, DecidableEq

/-- UltimateLead.calculate_quality (ultimate_scraper.py lines 476-487):
name +2, website +3, phone +2, email +3, address +1, rating > 0 +1,
review_count > 0 +1, any of instagram/facebook/twitter +1, capped at 10. -/
def UltimateLead.calculate_quality (l : UltimateLead) : Nat :=
  min ((if l.name ≠ "" then 2 else 0)
      + (if l.website ≠ "" then 3 else 0)
      + (if l.phone ≠ "" then 2 else 0)
      + (if l.email ≠ "" then 3 else 0)
      + (if l.address ≠ "" then 1 else 0)
      + (if 0 < l.rating then 1 else 0)
      + (if 0 < l.review_count then 1 else 0)
      + (if l.instagram ≠ "" ∨ l.facebook ≠ "" ∨ l.twitter ≠ "" then 1 else 0))
    10

/-! ### Companion-website scrape result

Both scrape_website_turbo and scrape_website_hyper build a dict with the five
keys email/instagram/facebook/twitter/tiktok. -/

/-- Result dict shape of scrape_website_hyper / scrape_website_turbo. -/
structure WebsiteData where
  email : String := ""
  instagram : String := ""
  facebook : String := ""
  twitter : String := ""
  tiktok : String := ""
deriving Repr, DecidableEq

/-- The all-empty result dict returned on every failure path. -/
def emptyWebsiteData : WebsiteData := {}

/-! ### Listing processing

process_listing_hyper (hyper_scraper.py lines 424-484) and
process_listing_turbo (turbo_scraper.py lines 410-465) have the same shape:

1. take the first name element found by the name selector chain, strip its
   text, and return None when the resulting name is empty;
2. inside a try block, click the listing and gather website/phone/address
   (a failed click or a failed gather leaves those fields empty);
3. when the website field is non-empty, merge in the companion-website
   scrape result;
4. compute the quality score and return the lead.

The browser effects are passed in as observed outcomes:
nameText is the inner text of the first name element found (none when no
selector matched), detail is the gathered (website, phone, address) triple
(none when the click/extraction try block failed before assignment), and
enrich is the dict the website scrape returned. -/

/-- Embedding of process_listing_hyper (hyper_scraper.py lines 424-484). -/
def processListingHyper (nameText : Option String)
    (detail : Option (String × String × String))
    (enrich : WebsiteData) (dt : Rat) : Option HyperLead :=
  let name := (nameText.map pyStrip).getD ""
  if name = "" then none
  else
    let (w, p, a) := detail.getD ("", "", "")
    let l0 : HyperLead :=
      { name := name, website := w, phone := p, address := a }
    let l1 :=
      if l0.website ≠ "" then
        { l0 with email := enrich.email, instagram := enrich.instagram,
                  facebook := enrich.facebook, twitter := enrich.twitter,
                  tiktok := enrich.tiktok }
      else l0
    let l2 := { l1 with processing_time := dt }
    some { l2 with quality_score := l2.calculate_quality }

/-- Embedding of process_listing_turbo (turbo_scraper.py lines 410-465). -/
def processListingTurbo (nameText : Option String)
    (detail : Option (String × String × String))
    (enrich : WebsiteData) : Option TurboLead :=
  let name := (nameText.map pyStrip).getD ""
  if name = "" then none
  else
    let (w, p, a) := detail.getD ("", "", "")
    let l0 : TurboLead :=
      { name := name, website := w, phone := p, address := a }
    let l1 :=
      if l0.website ≠ "" then
        { l0 with email := enrich.email, instagram := enrich.instagram,
                  facebook := enrich.facebook, twitter := enrich.twitter,
                  tiktok := enrich.tiktok }
      else l0
    some { l1 with quality_score := l1.calculate_quality }

/-- Result filter of scrape_google_maps_hyper (hyper_scraper.py lines
576-579): keep the gathered results that are HyperLead values with a truthy
(non-empty) name.  Exceptions appearing in the gather output are the none
entries. -/
def hyperFilterResults (results : List (Option HyperLead)) : List HyperLead :=
  (results.filterMap id).filter (fun l => l.name ≠ "")

/-- Embedding of the name-selection loop of process_listing_async
(async_scraper.py lines 476-493): cands lists the inner texts of the name
elements actually found, in selector order; the loop takes the first text
that is truthy and whose stripped form is longer than 2 characters, and the
lead name is that stripped text.  When no candidate qualifies the name stays
empty and the function returns None, modelled here by none. -/
def asyncListingName (cands : List String) : Option String :=
  match cands.find? (fun t => t ≠ "" && (pyStrip t).length > 2) with
  | some t => some (pyStrip t)
  | none => none


/-! ### Caches

HyperCache (hyper_scraper.py lines 136-213) pairs an in-memory dict with a
SQLite table; SmartCache (turbo_scraper.py lines 107-179) pairs an in-memory
dict with pickle files whose modification time drives expiry.  Dicts and
tables are modelled as association lists; a set on an existing key replaces
the stored value in place (INSERT OR REPLACE / dict assignment). -/

/-- Assignment into a Python dict / INSERT OR REPLACE into a keyed table. -/
def dictInsert {α : Type} (m : List (String × α)) (k : String) (v : α) :
    List (String × α) :=
  if (m.lookup k).isSome then m.map (fun p => if p.1 = k then (k, v) else p)
  else m ++ [(k, v)]

/-- HyperCache.max_memory_items, fixed to 1000 in HyperCache.__init__. -/
def maxMemoryItems : Nat := 1000

/-- One row of the hyper cache table: value, timestamp and ttl_hours. -/
structure HyperDbRow (α : Type) where
  value : α
  timestamp : Int
  ttl_hours : Int
deriving Repr, DecidableEq

/-- State of HyperCache: the in-memory dict and the SQLite table. -/
structure HyperCacheState (α : Type) where
  memory : List (String × α)
  db : List (String × HyperDbRow α)
deriving Repr, DecidableEq

/-- HyperCache._is_expired (hyper_scraper.py lines 160-162). -/
def hyperIsExpired (now ts ttl_hours : Int) : Bool :=
  now - ts > ttl_hours * 3600

/-- HyperCache.get (hyper_scraper.py lines 164-189): a key present in the
memory dict is returned immediately with no expiry check; otherwise the
table row is consulted and, when present and not expired by its stored ttl,
its value is returned and copied into the memory dict if that dict has
fewer than max_memory_items entries.  The ttl_hours parameter of the Python
method is unused on every path (the stored ttl governs expiry) and is
therefore not a parameter here. -/
def HyperCache.get {α : Type} (st : HyperCacheState α) (now : Int)
    (key : String) : Option α × HyperCacheState α :=
  match st.memory.lookup key with
  | some v => (some v, st)
  | none =>
    match st.db.lookup key with
    | some row =>
      if ¬ hyperIsExpired now row.timestamp row.ttl_hours then
        (some row.value,
         if st.memory.length < maxMemoryItems then
           { st with memory := dictInsert st.memory key row.value }
         else st)
      else (none, st)
    | none => (none, st)

/-- HyperCache.set (hyper_scraper.py lines 191-205): store in the memory
dict only when it has fewer than max_memory_items entries, and always
INSERT OR REPLACE into the table with the current time and the given ttl. -/
def HyperCache.set {α : Type} (st : HyperCacheState α) (now : Int)
    (key : String) (data : α) (ttl_hours : Int) : HyperCacheState α :=
  { memory :=
      if st.memory.length < maxMemoryItems then dictInsert st.memory key data
      else st.memory,
    db := dictInsert st.db key ⟨data, now, ttl_hours⟩ }

/-- State of SmartCache: the in-memory dict and the pickle files on disk,
each carrying its modification time. -/
structure SmartCacheState (α : Type) where
  memory : List (String × α)
  disk : List (String × (α × Int))
deriving Repr, DecidableEq

/-- SmartCache._is_expired (turbo_scraper.py lines 124-130): a cache file is
expired when its age exceeds ttl_hours; a missing file counts as expired,
which the disk lookup below models by returning a miss. -/
def smartIsExpired (now mtime ttl_hours : Int) : Bool :=
  now - mtime > ttl_hours * 3600

/-- SmartCache.get (turbo_scraper.py lines 132-154): a key present in the
memory dict is returned immediately with no expiry check; otherwise the
disk file is consulted and, when present and younger than ttl_hours, its
content is returned and stored into the memory dict (no size bound). -/
def SmartCache.get {α : Type} (st : SmartCacheState α) (now : Int)
    (key : String) (ttl_hours : Int) : Option α × SmartCacheState α :=
  match st.memory.lookup key with
  | some v => (some v, st)
  | none =>
    match st.disk.lookup key with
    | some (v, mtime) =>
      if ¬ smartIsExpired now mtime ttl_hours then
        (some v, { st with memory := dictInsert st.memory key v })
      else (none, st)
    | none => (none, st)

/-- SmartCache.set (turbo_scraper.py lines 156-169): store in the memory
dict unconditionally, then write the pickle file (its mtime becomes now). -/
def SmartCache.set {α : Type} (st : SmartCacheState α) (now : Int)
    (key : String) (data : α) : SmartCacheState α :=
  { memory := dictInsert st.memory key data,
    disk := dictInsert st.disk key (data, now) }


/-! ### MD5

hashlib.md5 is used by the ultimate variant to derive its cache keys
(UltimateScraper.get_cache_key) and by the other variants to derive disk
paths; it is embedded here in full (RFC 1321) over natural numbers reduced
modulo 2^32 so that concrete cache keys can be computed inside proofs. -/

/-- Truncation to a 32-bit word. -/
def w32 (x : Nat) : Nat := x % 4294967296

/-- Bitwise complement of a 32-bit word. -/
def not32 (x : Nat) : Nat := 4294967295 - w32 x

/-- Left rotation of a 32-bit word. -/
def rotl32 (x s : Nat) : Nat :=
  w32 (w32 x * 2 ^ s) ||| (w32 x) >>> (32 - s)

/-- The 64 MD5 round constants, floor(2^32 * abs(sin(i + 1))). -/
def md5K : List Nat :=
  [0xd76aa478, 0xe8c7b756, 0x242070db, 0xc1bdceee,
   0xf57c0faf, 0x4787c62a, 0xa8304613, 0xfd469501,
   0x698098d8, 0x8b44f7af, 0xffff5bb1, 0x895cd7be,
   0x6b901122, 0xfd987193, 0xa679438e, 0x49b40821,
   0xf61e2562, 0xc040b340, 0x265e5a51, 0xe9b6c7aa,
   0xd62f105d, 0x02441453, 0xd8a1e681, 0xe7d3fbc8,
   0x21e1cde6, 0xc33707d6, 0xf4d50d87, 0x455a14ed,
   0xa9e3e905, 0xfcefa3f8, 0x676f02d9, 0x8d2a4c8a,
   0xfffa3942, 0x8771f681, 0x6d9d6122, 0xfde5380c,
   0xa4beea44, 0x4bdecfa9, 0xf6bb4b60, 0xbebfbc70,
   0x289b7ec6, 0xeaa127fa, 0xd4ef3085, 0x04881d05,
   0xd9d4d039, 0xe6db99e5, 0x1fa27cf8, 0xc4ac5665,
   0xf4292244, 0x432aff97, 0xab9423a7, 0xfc93a039,
   0x655b59c3, 0x8f0ccc92, 0xffeff47d, 0x85845dd1,
   0x6fa87e4f, 0xfe2ce6e0, 0xa3014314, 0x4e0811a1,
   0xf7537e82, 0xbd3af235, 0x2ad7d2bb, 0xeb86d391]

/-- The 64 MD5 per-round left-rotation amounts. -/
def md5s : List Nat :=
  [7, 12, 17, 22, 7, 12, 17, 22, 7, 12, 17, 22, 7, 12, 17, 22,
   5, 9, 14, 20, 5, 9, 14, 20, 5, 9, 14, 20, 5, 9, 14, 20,
   4, 11, 16, 23, 4, 11, 16, 23, 4, 11, 16, 23, 4, 11, 16, 23,
   6, 10, 15, 21, 6, 10, 15, 21, 6, 10, 15, 21, 6, 10, 15, 21]

/-- The MD5 nonlinear mixing function for round i. -/
def md5F (i b c d : Nat) : Nat :=
  if i < 16 then (b &&& c) ||| (not32 b &&& d)
  else if i < 32 then (d &&& b) ||| (not32 d &&& c)
  else if i < 48 then b ^^^ c ^^^ d
  else c ^^^ (b ||| not32 d)

/-- The MD5 message-word index for round i. -/
def md5g (i : Nat) : Nat :=
  if i < 16 then i
  else if i < 32 then (5 * i + 1) % 16
  else if i < 48 then (3 * i + 5) % 16
  else (7 * i) % 16

/-- One MD5 round on the (A, B, C, D) state. -/
def md5step (M : List Nat) (st : Nat × Nat × Nat × Nat) (i : Nat) :
    Nat × Nat × Nat × Nat :=
  let (a, b, c, d) := st
  let f := w32 (md5F i b c d + a + md5K.getD i 0 + M.getD (md5g i) 0)
  (d, w32 (b + rotl32 f (md5s.getD i 0)), b, c)

/-- Process one 16-word chunk and add the result into the running state. -/
def md5chunk (st0 : Nat × Nat × Nat × Nat) (M : List Nat) :
    Nat × Nat × Nat × Nat :=
  let (a0, b0, c0, d0) := st0
  let (a, b, c, d) := (List.range 64).foldl (md5step M) (a0, b0, c0, d0)
  (w32 (a0 + a), w32 (b0 + b), w32 (c0 + c), w32 (d0 + d))

/-- Little-endian byte decomposition of a number. -/
def leBytes (n count : Nat) : List Nat :=
  (List.range count).map (fun i => n / 256 ^ i % 256)

/-- MD5 padding: a 0x80 byte, zeros up to 56 mod 64, then the 64-bit
little-endian bit length. -/
def md5pad (msg : List Nat) : List Nat :=
  let z := (120 - (msg.length + 1) % 64) % 64
  msg ++ [128] ++ List.replicate z 0 ++ leBytes (msg.length * 8) 8

/-- Split a 64-byte chunk into 16 little-endian 32-bit words. -/
def md5words (chunk : List Nat) : List Nat :=
  (List.range 16).map
    (fun j => ((chunk.drop (4 * j)).take 4).foldr (fun b acc => acc * 256 + b) 0)

/-- The MD5 initialization vector. -/
def md5init : Nat × Nat × Nat × Nat :=
  (0x67452301, 0xefcdab89, 0x98badcfe, 0x10325476)

/-- Fold md5chunk over the 64-byte chunks of a padded message. -/
def md5process (st : Nat × Nat × Nat × Nat) (bytes : List Nat) :
    Nat × Nat × Nat × Nat :=
  (List.range (bytes.length / 64)).foldl
    (fun st j => md5chunk st (md5words ((bytes.drop (64 * j)).take 64))) st

/-- Lower-case hex digit. -/
def hexDigit (n : Nat) : Char :=
  if n < 10 then Char.ofNat (48 + n) else Char.ofNat (87 + n)

/-- Two hex digits of a byte, high nibble first. -/
def toHexByte (b : Nat) : List Char := [hexDigit (b / 16), hexDigit (b % 16)]

/-- hashlib.md5(s.encode()).hexdigest() for the ASCII strings used here. -/
def md5Hex (s : String) : String :=
  let msg := s.data.map Char.toNat
  let (a, b, c, d) := md5process md5init (md5pad msg)
  ⟨((([a, b, c, d].map (fun w => leBytes w 4)).flatten).map toHexByte).flatten⟩

/-! ### Ultimate-scraper result cache and the query cache keys -/

/-- UltimateScraper.get_cache_key (ultimate_scraper.py lines 573-576):
the MD5 hex digest of the unnormalized f-string
business_type_location_max_results. -/
def UltimateScraper.get_cache_key (business_type location : String)
    (max_results : Nat) : String :=
  md5Hex (business_type ++ "_" ++ location ++ "_" ++ toString max_results)

/-- One row of the leads_cache table of the ultimate scraper
(ultimate_scraper.py lines 524-539); the serialized lead list is modelled
in parsed form. -/
structure UltimateCacheRow where
  query : String
  location : String
  data : List UltimateLead
  timestamp : Int
  source : String
deriving Repr, DecidableEq

/-- UltimateScraper.get_cached_results (ultimate_scraper.py lines 578-601):
look the key up in the leads_cache table and honor a hard-coded 6-hour
validity window against the stored timestamp on every read. -/
def UltimateScraper.get_cached_results
    (db : List (String × UltimateCacheRow)) (now : Int)
    (business_type location : String) (max_results : Nat) :
    Option (List UltimateLead) :=
  match db.lookup (UltimateScraper.get_cache_key business_type location max_results) with
  | some row => if now - row.timestamp < 21600 then some row.data else none
  | none => none

/-- Query cache key of scrape_google_maps_hyper (hyper_scraper.py line 519):
the raw f-string, used directly as the HyperCache key. -/
def hyperMapsCacheKey (business_type location : String) (max_results : Nat) :
    String :=
  "hyper_maps_" ++ business_type ++ "_" ++ location ++ "_" ++ toString max_results

/-- Query cache key of scrape_google_maps_turbo (turbo_scraper.py line 500):
the raw f-string, used directly as the SmartCache key (max_results is not
part of the key in this variant). -/
def turboMapsCacheKey (business_type location : String) : String :=
  "maps_" ++ business_type ++ "_" ++ location


/-! ### Scrape entry points: pre-navigation phase -/

/-- Outcome of the pre-navigation phase of a scrape entry point.  The
invalidQuery constructor is the outcome the specification prescribes for
blank inputs; no code path of scrape_google_maps_hyper or
scrape_google_maps_turbo produces it (neither function inspects its inputs
before building the cache key and the search URL), and it is declared here
so that the claimed fail-fast behavior can be stated and refuted against
the embedded entry points. -/
inductive ScrapeInit where
  | invalidQuery : ScrapeInit
  | proceed (cacheKey mapsUrl : String) : ScrapeInit
deriving Repr, DecidableEq

/-- True on the proceed outcome. -/
def ScrapeInit.isProceed : ScrapeInit → Bool
  | .proceed _ _ => true
  | .invalidQuery => false

/-- The Google-Maps search URL both entry points build:
the f-string business_type location with spaces replaced by plus signs,
appended to the search base URL. -/
def mapsSearchUrl (business_type location : String) : String :=
  "https://www.google.com/maps/search/"
    ++ ⟨(business_type ++ " " ++ location).data.map
          (fun c => if c = ' ' then '+' else c)⟩

/-- Pre-navigation phase of scrape_google_maps_hyper (hyper_scraper.py
lines 513-535): the function records stats, derives the raw cache key,
consults the cache and navigates; it performs no input validation, so the
embedded plan is a proceed step for every input. -/
def hyperScrapeInit (business_type location : String) (max_results : Nat) :
    ScrapeInit :=
  .proceed (hyperMapsCacheKey business_type location max_results)
    (mapsSearchUrl business_type location)

/-- Pre-navigation phase of scrape_google_maps_turbo (turbo_scraper.py
lines 494-516), identical in shape to the hyper entry point. -/
def turboScrapeInit (business_type location : String) : ScrapeInit :=
  .proceed (turboMapsCacheKey business_type location)
    (mapsSearchUrl business_type location)

/-! ### Near-duplicate suppression (main.py lines 382-415) -/

/-- The business_data dict built per listing in main.scrape_google_maps
(main.py lines 220-231). -/
structure BusinessData where
  name : String := ""
  website : String := ""
  phone : String := ""
  address : String := ""
  email : String := ""
  instagram : String := ""
  facebook : String := ""
  tiktok : String := ""
  twitter : String := ""
  owner_twitter : String := ""
deriving Repr, DecidableEq

/-- Python substring containment (the in operator on str). -/
def isSubstr (a b : String) : Bool :=
  (List.range (b.data.length + 1)).any
    (fun i => decide (((b.data.drop i).take a.data.length) = a.data))

/-- The similar-name collision test of main.py lines 397-407: one
normalized name contains the other and the shorter-to-longer length ratio
exceeds 0.7.  The source compares len(shorter)/len(longer) > 0.7 in
floating point; for the string lengths in play the comparison is exact and
equivalent to 10 * shorter > 7 * longer over the integers (the double
nearest 0.7 is below 7/10, and no length ratio with denominator below 10^15
falls between them). -/
def similarCollide (name_key existing : String) : Bool :=
  (isSubstr name_key existing || isSubstr existing name_key)
    && decide (10 * min name_key.length existing.length
        > 7 * max name_key.length existing.length)

/-- One iteration of the duplicate-removal loop of main.py lines 389-411:
skip the business when its normalized (lower-cased, stripped) name is
already seen or collides with a seen name; otherwise record the name and
keep the business. -/
def dedupStep (acc : List String × List BusinessData)
    (business : BusinessData) : List String × List BusinessData :=
  let (seen, kept) := acc
  let name_key := pyStrip (pyLower business.name)
  if seen.contains name_key then (seen, kept)
  else if seen.any (fun existing => similarCollide name_key existing) then
    (seen, kept)
  else (seen ++ [name_key], kept ++ [business])

/-- The final duplicate-removal pass of main.scrape_google_maps
(main.py lines 382-415). -/
def removeDuplicates (businesses : List BusinessData) : List BusinessData :=
  (businesses.foldl dedupStep ([], [])).2
/-- The normalized name the duplicate-removal pass derives per business
(main.py line 390). -/
def dedupNormName (b : BusinessData) : String := pyStrip (pyLower b.name)

/-! ### Companion-website scraping (fail-soft paths) -/

/-- Observed outcome of the aiohttp GET inside scrape_website_hyper /
scrape_website_turbo: failure covers timeouts, DNS errors and malformed
URLs, all of which raise and are swallowed by the blanket except clause;
response carries the HTTP status and the decoded byte-capped body prefix. -/
inductive FetchResult where
  | failure : FetchResult
  | response (status : Nat) (body : String) : FetchResult
deriving Repr, DecidableEq

/-- Embedding of scrape_website_hyper (hyper_scraper.py lines 379-422):
an empty URL short-circuits to the all-empty dict; a cached value is
returned as-is; a raised fetch or a non-200 status yields the all-empty
dict; only a 200 response reaches the regex-extraction block, which is
passed in as the function extract so that the failure paths are proved for
every possible extraction. -/
def scrapeWebsiteHyper (url : String) (cached : Option WebsiteData)
    (fetch : FetchResult) (extract : String → WebsiteData) : WebsiteData :=
  if url = "" then emptyWebsiteData
  else
    match cached with
    | some d => d
    | none =>
      match fetch with
      | .failure => emptyWebsiteData
      | .response status body =>
        if status ≠ 200 then emptyWebsiteData else extract body

/-- Embedding of scrape_website_turbo (turbo_scraper.py lines 364-408),
which has exactly the same control flow as the hyper version (only the
byte cap and cache ttl differ, neither of which affects these paths). -/
def scrapeWebsiteTurbo (url : String) (cached : Option WebsiteData)
    (fetch : FetchResult) (extract : String → WebsiteData) : WebsiteData :=
  if url = "" then emptyWebsiteData
  else
    match cached with
    | some d => d
    | none =>
      match fetch with
      | .failure => emptyWebsiteData
      | .response status body =>
        if status ≠ 200 then emptyWebsiteData else extract body

/-! ### Twitter/X canonicalization

All variants canonicalize the twitter field with the Python expression
match.replace("twitter.com", "x.com") applied to a URL matched by the
regex https?://(?:www\.)?(?:twitter\.com|x\.com)/[a-zA-Z0-9_]+ (main.py
additionally allows a trailing slash).  Python str.replace is embedded
below over character lists. -/

/-- When the first list is a prefix of the second, return the remainder. -/
def stripPfx : List Char → List Char → Option (List Char)
  | [], s => some s
  | _ :: _, [] => none
  | p :: ps, c :: ss => if p = c then stripPfx ps ss else none

/-- Scanner for Python str.replace on character lists: at skip 0, a
position where the pattern starts is replaced by rep and the pattern
length is skipped; otherwise the character is copied.  Non-overlapping
left-to-right replacement, exactly as str.replace performs for a
non-empty pattern. -/
def replaceGo (pat rep : List Char) : Nat → List Char → List Char
  | _, [] => []
  | Nat.succ k, _ :: rest => replaceGo pat rep k rest
  | 0, c :: rest =>
    match stripPfx pat (c :: rest) with
    | some _ => rep ++ replaceGo pat rep (pat.length - 1) rest
    | none => c :: replaceGo pat rep 0 rest

/-- Python s.replace(pat, rep) for a non-empty pattern. -/
def pyReplace (s pat rep : List Char) : List Char := replaceGo pat rep 0 s

/-- The characters of the URL matched by the twitter regex of
turbo_scraper.extract_social_links_fast, hyper_scraper.scrape_website_hyper
and main.extract_social_media_links: an http or https scheme, an optional
www. prefix, host twitter.com or x.com, and a slash-separated handle over
[a-zA-Z0-9_], optionally followed by a trailing slash (main.py only). -/
def renderTwitterURL (secure www tw slash : Bool) (handle : List Char) :
    List Char :=
  (if secure then "https://".data else "http://".data)
    ++ ((if www then "www.".data else [])
    ++ ((if tw then "twitter.com".data else "x.com".data)
    ++ ('/' :: (handle ++ (if slash then ['/'] else [])))))

/-! ### Quality-score lemmas shared by the claims -/

/-- Pointwise comparison of the if-then-else contributions that make up a
quality score. -/
theorem iteContribLe {P Q : Prop} [Decidable P] [Decidable Q]
    (h : P → Q) (k : Nat) : (if P then k else 0) ≤ (if Q then k else 0) := by
  by_cases hp : P <;> by_cases hq : Q <;> simp [hp, hq]
  exact absurd (h hp) hq

/-- Monotonicity of TurboLead.calculate_quality in the field flags. -/
theorem turboQualityMono (l₁ l₂ : TurboLead)
    (h1 : l₁.name ≠ "" → l₂.name ≠ "")
    (h2 : l₁.website ≠ "" → l₂.website ≠ "")
    (h3 : l₁.phone ≠ "" → l₂.phone ≠ "")
    (h4 : l₁.email ≠ "" → l₂.email ≠ "")
    (h5 : l₁.address ≠ "" → l₂.address ≠ "")
    (h6 : l₁.instagram ≠ "" ∨ l₁.facebook ≠ "" ∨ l₁.twitter ≠ "" →
          l₂.instagram ≠ "" ∨ l₂.facebook ≠ "" ∨ l₂.twitter ≠ "") :
    l₁.calculate_quality ≤ l₂.calculate_quality :=
  min_le_min
    (add_le_add (add_le_add (add_le_add (add_le_add (add_le_add
      (iteContribLe h1 2) (iteContribLe h2 2)) (iteContribLe h3 2))
      (iteContribLe h4 2)) (iteContribLe h5 1)) (iteContribLe h6 1)) le_rfl

/-- Monotonicity of HyperLead.calculate_quality in the field flags. -/
theorem hyperQualityMono (l₁ l₂ : HyperLead)
    (h1 : l₁.name ≠ "" → l₂.name ≠ "")
    (h2 : l₁.website ≠ "" → l₂.website ≠ "")
    (h3 : l₁.phone ≠ "" → l₂.phone ≠ "")
    (h4 : l₁.email ≠ "" → l₂.email ≠ "")
    (h5 : l₁.address ≠ "" → l₂.address ≠ "")
    (h6 : l₁.instagram ≠ "" ∨ l₁.facebook ≠ "" ∨ l₁.twitter ≠ "" →
          l₂.instagram ≠ "" ∨ l₂.facebook ≠ "" ∨ l₂.twitter ≠ "") :
    l₁.calculate_quality ≤ l₂.calculate_quality :=
  min_le_min
    (add_le_add (add_le_add (add_le_add (add_le_add (add_le_add
      (iteContribLe h1 2) (iteContribLe h2 3)) (iteContribLe h3 2))
      (iteContribLe h4 3)) (iteContribLe h5 1)) (iteContribLe h6 1)) le_rfl

/-- Monotonicity of UltimateLead.calculate_quality in the field flags. -/
theorem ultimateQualityMono (l₁ l₂ : UltimateLead)
    (h1 : l₁.name ≠ "" → l₂.name ≠ "")
    (h2 : l₁.website ≠ "" → l₂.website ≠ "")
    (h3 : l₁.phone ≠ "" → l₂.phone ≠ "")
    (h4 : l₁.email ≠ "" → l₂.email ≠ "")
    (h5 : l₁.address ≠ "" → l₂.address ≠ "")
    (h6 : 0 < l₁.rating → 0 < l₂.rating)
    (h7 : 0 < l₁.review_count → 0 < l₂.review_count)
    (h8 : l₁.instagram ≠ "" ∨ l₁.facebook ≠ "" ∨ l₁.twitter ≠ "" →
          l₂.instagram ≠ "" ∨ l₂.facebook ≠ "" ∨ l₂.twitter ≠ "") :
    l₁.calculate_quality ≤ l₂.calculate_quality :=
  min_le_min
    (add_le_add (add_le_add (add_le_add (add_le_add (add_le_add (add_le_add
      (add_le_add (iteContribLe h1 2) (iteContribLe h2 3))
      (iteContribLe h3 2)) (iteContribLe h4 3)) (iteContribLe h5 1))
      (iteContribLe h6 1)) (iteContribLe h7 1)) (iteContribLe h8 1)) le_rfl

/-- Claim C1 (counterexample): in the turbo variant, the scenario-A lead
(name, website, phone and email non-empty, everything else empty) receives
quality_score 8, because TurboLead.calculate_quality weighs the website and
the email at 2 points each; the claimed value of 9 or 10 is not reached. -/
theorem C1_turbo_scenarioA_score_not_9_or_10 :
    (processListingTurbo (some "Joes Pizza")
        (some ("https://joespizza.com", "(555) 123-4567", ""))
        { email := "info@joespizza.com" }).map TurboLead.quality_score = some 8
    ∧ ¬ ((processListingTurbo (some "Joes Pizza")
        (some ("https://joespizza.com", "(555) 123-4567", ""))
        { email := "info@joespizza.com" }).map TurboLead.quality_score = some 9
      ∨ (processListingTurbo (some "Joes Pizza")
        (some ("https://joespizza.com", "(555) 123-4567", ""))
        { email := "info@joespizza.com" }).map TurboLead.quality_score = some 10) := by
  decide

/-- Claim C1 (amended): a scenario-A lead (non-empty name, website, phone and
email; empty address, rating, reviews and socials) scores
2 + 3 + 2 + 3 = 10 in the hyper and ultimate variants but
2 + 2 + 2 + 2 = 8 in the turbo variant; in the hyper pipeline the processed
lead carries exactly the extracted field values and survives the
orchestrator result filter. -/
theorem C1_scenarioA_quality_by_variant :
    processListingHyper (some "Joes Pizza")
        (some ("https://joespizza.com", "(555) 123-4567", ""))
        { email := "info@joespizza.com" } 0
      = some { name := "Joes Pizza", website := "https://joespizza.com",
               phone := "(555) 123-4567", email := "info@joespizza.com",
               quality_score := 10 }
    ∧ hyperFilterResults [processListingHyper (some "Joes Pizza")
        (some ("https://joespizza.com", "(555) 123-4567", ""))
        { email := "info@joespizza.com" } 0]
      = [{ name := "Joes Pizza", website := "https://joespizza.com",
           phone := "(555) 123-4567", email := "info@joespizza.com",
           quality_score := 10 }]
    ∧ UltimateLead.calculate_quality
        { name := "Joes Pizza", website := "https://joespizza.com",
          phone := "(555) 123-4567", email := "info@joespizza.com" } = 10
    ∧ (processListingTurbo (some "Joes Pizza")
        (some ("https://joespizza.com", "(555) 123-4567", ""))
        { email := "info@joespizza.com" }).map TurboLead.quality_score
      = some 8 := by
  refine ⟨by decide, by decide, by decide, by decide⟩

/-- Claim C2: in every variant the quality score is at most 10 (and, being a
natural number, at least 0); it is monotone in the emptiness flags of the
contributing fields, so filling a previously-empty contributing field never
decreases it; and it is a deterministic function of those flags alone, hence
independent of the order in which fields were populated. -/
theorem C2_quality_bounded_deterministic_monotone :
    (∀ l : TurboLead, l.calculate_quality ≤ 10)
    ∧ (∀ l : HyperLead, l.calculate_quality ≤ 10)
    ∧ (∀ l : UltimateLead, l.calculate_quality ≤ 10)
    ∧ (∀ l₁ l₂ : TurboLead,
        (l₁.name ≠ "" → l₂.name ≠ "") →
        (l₁.website ≠ "" → l₂.website ≠ "") →
        (l₁.phone ≠ "" → l₂.phone ≠ "") →
        (l₁.email ≠ "" → l₂.email ≠ "") →
        (l₁.address ≠ "" → l₂.address ≠ "") →
        (l₁.instagram ≠ "" ∨ l₁.facebook ≠ "" ∨ l₁.twitter ≠ "" →
          l₂.instagram ≠ "" ∨ l₂.facebook ≠ "" ∨ l₂.twitter ≠ "") →
        l₁.calculate_quality ≤ l₂.calculate_quality)
    ∧ (∀ l₁ l₂ : HyperLead,
        (l₁.name ≠ "" → l₂.name ≠ "") →
        (l₁.website ≠ "" → l₂.website ≠ "") →
        (l₁.phone ≠ "" → l₂.phone ≠ "") →
        (l₁.email ≠ "" → l₂.email ≠ "") →
        (l₁.address ≠ "" → l₂.address ≠ "") →
        (l₁.instagram ≠ "" ∨ l₁.facebook ≠ "" ∨ l₁.twitter ≠ "" →
          l₂.instagram ≠ "" ∨ l₂.facebook ≠ "" ∨ l₂.twitter ≠ "") →
        l₁.calculate_quality ≤ l₂.calculate_quality)
    ∧ (∀ l₁ l₂ : UltimateLead,
        (l₁.name ≠ "" → l₂.name ≠ "") →
        (l₁.website ≠ "" → l₂.website ≠ "") →
        (l₁.phone ≠ "" → l₂.phone ≠ "") →
        (l₁.email ≠ "" → l₂.email ≠ "") →
        (l₁.address ≠ "" → l₂.address ≠ "") →
        (0 < l₁.rating → 0 < l₂.rating) →
        (0 < l₁.review_count → 0 < l₂.review_count) →
        (l₁.instagram ≠ "" ∨ l₁.facebook ≠ "" ∨ l₁.twitter ≠ "" →
          l₂.instagram ≠ "" ∨ l₂.facebook ≠ "" ∨ l₂.twitter ≠ "") →
        l₁.calculate_quality ≤ l₂.calculate_quality)
    ∧ (∀ l₁ l₂ : HyperLead,
        (l₁.name ≠ "" ↔ l₂.name ≠ "") →
        (l₁.website ≠ "" ↔ l₂.website ≠ "") →
        (l₁.phone ≠ "" ↔ l₂.phone ≠ "") →
        (l₁.email ≠ "" ↔ l₂.email ≠ "") →
        (l₁.address ≠ "" ↔ l₂.address ≠ "") →
        ((l₁.instagram ≠ "" ∨ l₁.facebook ≠ "" ∨ l₁.twitter ≠ "") ↔
          (l₂.instagram ≠ "" ∨ l₂.facebook ≠ "" ∨ l₂.twitter ≠ "")) →
        l₁.calculate_quality = l₂.calculate_quality) := by
  refine ⟨fun l => min_le_right _ _, fun l => min_le_right _ _,
    fun l => min_le_right _ _, turboQualityMono, hyperQualityMono,
    ultimateQualityMono, ?_⟩
  intro l₁ l₂ h1 h2 h3 h4 h5 h6
  exact le_antisymm
    (hyperQualityMono l₁ l₂ h1.mp h2.mp h3.mp h4.mp h5.mp h6.mp)
    (hyperQualityMono l₂ l₁ h1.mpr h2.mpr h3.mpr h4.mpr h5.mpr h6.mpr)

/-- Witness for claim C2 at concrete leads: filling the website field of a
name-only turbo lead, the email field of a name-only hyper lead and the
rating of a name-only ultimate lead never decreases the score. -/
theorem C2_quality_witness :
    ({ name := "A" } : TurboLead).calculate_quality ≤
      ({ name := "A", website := "w" } : TurboLead).calculate_quality
    ∧ ({ name := "A" } : HyperLead).calculate_quality ≤
      ({ name := "A", email := "e" } : HyperLead).calculate_quality
    ∧ ({ name := "A" } : UltimateLead).calculate_quality ≤
      ({ name := "A", rating := 4 } : UltimateLead).calculate_quality :=
  ⟨C2_quality_bounded_deterministic_monotone.2.2.2.1 _ _
      (by decide) (by decide) (by decide) (by decide) (by decide) (by decide),
   C2_quality_bounded_deterministic_monotone.2.2.2.2.1 _ _
      (by decide) (by decide) (by decide) (by decide) (by decide) (by decide),
   C2_quality_bounded_deterministic_monotone.2.2.2.2.2.1 _ _
      (by decide) (by decide) (by decide) (by decide) (by decide)
      (by norm_num) (by decide) (by decide)⟩

/-- Claim C4 (counterexample): the hyper variant only requires a truthy
(non-empty) stripped name, so a listing whose card name is the two-character
string AB yields a surfaced lead whose name is shorter than 3 characters;
the orchestrator result filter keeps it. -/
theorem C4_hyper_two_char_name_surfaced :
    processListingHyper (some "AB") none {} 0
      = some { name := "AB", quality_score := 2 }
    ∧ hyperFilterResults [processListingHyper (some "AB") none {} 0]
      = [{ name := "AB", quality_score := 2 }]
    ∧ ("AB" : String).length < 3 := by
  decide

/-- Claim C4 (amended): every lead produced by process_listing_hyper or
process_listing_turbo, and every lead surviving the hyper result filter, has
a non-empty name; the 3-character minimum is enforced only by the async
variant, whose name-selection loop accepts exactly the candidates whose
stripped text is longer than 2 characters. -/
theorem C4_name_nonempty_and_async_min_length :
    (∀ nameText detail enrich dt l,
      processListingHyper nameText detail enrich dt = some l → l.name ≠ "")
    ∧ (∀ nameText detail enrich l,
      processListingTurbo nameText detail enrich = some l → l.name ≠ "")
    ∧ (∀ results l, l ∈ hyperFilterResults results → l.name ≠ "")
    ∧ (∀ cands n, asyncListingName cands = some n → n ≠ "" ∧ 3 ≤ n.length) := by
  refine ⟨?_, ?_, ?_, ?_⟩
  · intro nt d e dt l hl
    unfold processListingHyper at hl
    by_cases h : (nt.map pyStrip).getD "" = ""
    · simp [h] at hl
    · simp only [h, if_false, Option.some_inj] at hl
      split at hl <;> (subst hl; simpa using h)
  · intro nt d e l hl
    unfold processListingTurbo at hl
    by_cases h : (nt.map pyStrip).getD "" = ""
    · simp [h] at hl
    · simp only [h, if_false, Option.some_inj] at hl
      split at hl <;> (subst hl; simpa using h)
  · intro results l hl
    have := (List.mem_filter.mp hl).2
    simpa using this
  · intro cands n hn
    unfold asyncListingName at hn
    rcases hfind : cands.find? (fun t => t ≠ "" && (pyStrip t).length > 2)
      with _ | t
    · rw [hfind] at hn; exact absurd hn (by simp)
    · rw [hfind] at hn
      have hp := List.find?_some hfind
      simp only [Bool.and_eq_true, decide_eq_true_eq] at hp
      have hlen : 2 < (pyStrip t).length := hp.2
      have hn' : n = pyStrip t := by
        simpa using hn.symm
      subst hn'
      refine ⟨?_, hlen⟩
      intro hempty
      rw [hempty] at hlen
      simp at hlen

/-- Witness for claim C4 at a concrete candidate list: the async
name-selection loop skips the short and empty candidates and returns the
stripped third candidate, which is non-empty and at least 3 characters. -/
theorem C4_name_witness :
    ("Joes" : String) ≠ "" ∧ 3 ≤ ("Joes" : String).length :=
  C4_name_nonempty_and_async_min_length.2.2.2 ["AB", "", "  Joes  "] "Joes"
    (by decide)

/-- Looking up the key just written by dictInsert yields the new value. -/
theorem dictInsert_lookup {α : Type} (m : List (String × α)) (k : String)
    (v : α) : (dictInsert m k v).lookup k = some v := by
  unfold dictInsert
  by_cases h : (m.lookup k).isSome
  · rw [if_pos h]
    induction m with
    | nil => simp at h
    | cons p rest ih =>
      rcases p with ⟨a, b⟩
      by_cases hak : a = k
      · subst hak
        have hhead : (fun p => if p.1 = a then (a, v) else p) ((a, b) : String × α)
            = (a, v) := by simp
        simp only [List.map_cons, hhead]
        simp [List.lookup]
      · have hka : (k == a) = false := by
          simp only [beq_eq_false_iff_ne]
          exact fun hk => hak hk.symm
        simp only [List.map_cons]
        rw [if_neg hak]
        simp only [List.lookup, hka]
        exact ih (by simpa [List.lookup, hka] using h)
  · rw [if_neg h]
    induction m with
    | nil => simp [List.lookup]
    | cons p rest ih =>
      rcases p with ⟨a, b⟩
      have hka : (k == a) = false := by
        cases hkb : (k == a) with
        | false => rfl
        | true => exact absurd (by simp [List.lookup, hkb]) h
      simp only [List.cons_append, List.lookup, hka]
      exact ih (by simpa [List.lookup, hka] using h)

/-- dictInsert grows the dict by one entry exactly when the key is new. -/
theorem dictInsert_length {α : Type} (m : List (String × α)) (k : String)
    (v : α) :
    (dictInsert m k v).length =
      if (m.lookup k).isSome then m.length else m.length + 1 := by
  by_cases h : (m.lookup k).isSome <;> simp [dictInsert, h]

/-- Claim C3 (counterexample): a key held in the HyperCache memory dict is
returned by get even when its table row expired long ago: the entry was
written at time 0 with a 1-hour ttl and is read at time 99999, yet the read
returns the stored value rather than None. -/
theorem C3_hyper_memory_hit_returns_expired :
    (HyperCache.get (α := Nat)
        { memory := [("k", 7)], db := [("k", ⟨7, 0, 1⟩)] } 99999 "k").1
      = some 7
    ∧ hyperIsExpired 99999 0 1 = true := by
  decide

/-- Claim C3 (amended): the TTL check happens only on the durable-tier read
path.  When the key is absent from the memory dict, an expired HyperCache
table row or SmartCache disk file yields None, and the ultimate variant
checks its 6-hour window on every read; but a memory-dict hit in the hyper
and turbo caches returns the stored value without any TTL check. -/
theorem C3_expiry_checked_on_durable_tier_only :
    (∀ (α : Type) (st : HyperCacheState α) (now : Int) (key : String),
      st.memory.lookup key = none →
      (∀ row, st.db.lookup key = some row →
        hyperIsExpired now row.timestamp row.ttl_hours = true) →
      (HyperCache.get st now key).1 = none)
    ∧ (∀ (α : Type) (st : SmartCacheState α) (now : Int) (key : String)
        (ttl_hours : Int),
      st.memory.lookup key = none →
      (∀ v mtime, st.disk.lookup key = some (v, mtime) →
        smartIsExpired now mtime ttl_hours = true) →
      (SmartCache.get st now key ttl_hours).1 = none)
    ∧ (∀ (db : List (String × UltimateCacheRow)) (now : Int)
        (business_type location : String) (max_results : Nat),
      (∀ row, db.lookup
          (UltimateScraper.get_cache_key business_type location max_results)
            = some row →
        21600 ≤ now - row.timestamp) →
      UltimateScraper.get_cached_results db now business_type location
        max_results = none) := by
  refine ⟨?_, ?_, ?_⟩
  · intro α st now key hm hexp
    rcases hdb : st.db.lookup key with _ | row
    · simp [HyperCache.get, hm, hdb]
    · simp [HyperCache.get, hm, hdb, hexp row hdb]
  · intro α st now key ttl hm hexp
    rcases hdb : st.disk.lookup key with _ | vm
    · simp [SmartCache.get, hm, hdb]
    · rcases vm with ⟨v, mtime⟩
      simp [SmartCache.get, hm, hdb, hexp v mtime hdb]
  · intro db now bt loc mr hexp
    rcases hdb : db.lookup (UltimateScraper.get_cache_key bt loc mr)
      with _ | row
    · simp [UltimateScraper.get_cached_results, hdb]
    · simp [UltimateScraper.get_cached_results, hdb,
        if_neg (not_lt.mpr (hexp row hdb))]

/-- Witness for claim C3 at a concrete state: a memory-miss read of an
entry written at time 0 with a 1-hour ttl, performed at time 99999,
returns None. -/
theorem C3_expiry_witness :
    (HyperCache.get (α := Nat)
        { memory := [], db := [("k", ⟨7, 0, 1⟩)] } 99999 "k").1 = none :=
  C3_expiry_checked_on_durable_tier_only.1 Nat
    { memory := [], db := [("k", ⟨7, 0, 1⟩)] } 99999 "k" (by decide)
    (by
      intro row h
      have h2 : some (⟨7, 0, 1⟩ : HyperDbRow Nat) = some row := h
      injection h2 with h3
      subst h3
      decide)

/-- Claim C10: a HyperCache set or get never grows the memory dict past
max_memory_items: each operation inserts a new memory entry only when the
dict currently has strictly fewer than 1000 entries and otherwise leaves
the entry count unchanged; a dict within the bound stays within the bound;
and every set writes its row through to the SQLite table unconditionally. -/
theorem C10_memory_tier_bounded_db_write_through :
    (∀ (α : Type) (st : HyperCacheState α) (now : Int) (key : String)
        (data : α) (ttl : Int),
      (HyperCache.set st now key data ttl).memory.length = st.memory.length
      ∨ ((HyperCache.set st now key data ttl).memory.length
            = st.memory.length + 1
          ∧ st.memory.length < maxMemoryItems))
    ∧ (∀ (α : Type) (st : HyperCacheState α) (now : Int) (key : String),
      (HyperCache.get st now key).2.memory.length = st.memory.length
      ∨ ((HyperCache.get st now key).2.memory.length = st.memory.length + 1
          ∧ st.memory.length < maxMemoryItems))
    ∧ (∀ (α : Type) (st : HyperCacheState α) (now : Int) (key : String)
        (data : α) (ttl : Int),
      st.memory.length ≤ maxMemoryItems →
      (HyperCache.set st now key data ttl).memory.length ≤ maxMemoryItems
      ∧ (HyperCache.get st now key).2.memory.length ≤ maxMemoryItems)
    ∧ (∀ (α : Type) (st : HyperCacheState α) (now : Int) (key : String)
        (data : α) (ttl : Int),
      (HyperCache.set st now key data ttl).db.lookup key
        = some ⟨data, now, ttl⟩) := by
  have hset : ∀ (α : Type) (st : HyperCacheState α) (now : Int)
      (key : String) (data : α) (ttl : Int),
      (HyperCache.set st now key data ttl).memory.length = st.memory.length
      ∨ ((HyperCache.set st now key data ttl).memory.length
            = st.memory.length + 1
          ∧ st.memory.length < maxMemoryItems) := by
    intro α st now key data ttl
    unfold HyperCache.set
    by_cases hlt : st.memory.length < maxMemoryItems
    · by_cases hk : (st.memory.lookup key).isSome
      · left; simp [hlt, dictInsert_length, hk]
      · right; simp [hlt, dictInsert_length, hk]
    · left; simp [hlt]
  have hget : ∀ (α : Type) (st : HyperCacheState α) (now : Int)
      (key : String),
      (HyperCache.get st now key).2.memory.length = st.memory.length
      ∨ ((HyperCache.get st now key).2.memory.length = st.memory.length + 1
          ∧ st.memory.length < maxMemoryItems) := by
    intro α st now key
    unfold HyperCache.get
    rcases hm : st.memory.lookup key with _ | v
    · rcases hdb : st.db.lookup key with _ | row
      · left; rfl
      · by_cases hexp : hyperIsExpired now row.timestamp row.ttl_hours
        · left; simp [hexp]
        · by_cases hlt : st.memory.length < maxMemoryItems
          · right
            constructor
            · simp [hexp, hlt, dictInsert_length, hm]
            · exact hlt
          · left; simp [hexp, hlt]
    · left; rfl
  refine ⟨hset, hget, ?_, ?_⟩
  · intro α st now key data ttl hbound
    constructor
    · rcases hset α st now key data ttl with h | ⟨h, hlt⟩
      · omega
      · unfold maxMemoryItems at *; omega
    · rcases hget α st now key with h | ⟨h, hlt⟩
      · omega
      · unfold maxMemoryItems at *; omega
  · intro α st now key data ttl
    unfold HyperCache.set
    exact dictInsert_lookup st.db key _

/-- Witness for claim C10 at a concrete state: a set on a one-entry cache
keeps the memory dict within the 1000-entry bound and lands the row in the
SQLite table. -/
theorem C10_memory_bound_witness :
    (HyperCache.set (α := Nat)
        { memory := [("j", 5)], db := [] } 50 "k" 3 24).memory.length
      ≤ maxMemoryItems :=
  (C10_memory_tier_bounded_db_write_through.2.2.1 Nat
    { memory := [("j", 5)], db := [] } 50 "k" 3 24 (by decide)).1

/-- Claim C5 (counterexample): the query with empty business_type is not
rejected: scrape_google_maps_hyper computes a cache key and a navigation
URL from the raw inputs and proceeds; no InvalidQuery outcome exists on any
path of either entry point. -/
theorem C5_empty_business_type_not_rejected :
    hyperScrapeInit "" "Austin, TX" 10 ≠ ScrapeInit.invalidQuery
    ∧ hyperScrapeInit "" "Austin, TX" 10
        = ScrapeInit.proceed "hyper_maps__Austin, TX_10"
            "https://www.google.com/maps/search/+Austin,+TX"
    ∧ turboScrapeInit "" "Austin, TX" ≠ ScrapeInit.invalidQuery := by
  refine ⟨by decide, ?_, by decide⟩
  decide

/-- Claim C5 (amended): neither scrape entry point validates its inputs:
for every business_type, location and max_results, including blank ones,
the pre-navigation phase proceeds to the cache lookup and navigation and
never produces an InvalidQuery outcome. -/
theorem C5_no_input_validation :
    ∀ (business_type location : String) (max_results : Nat),
      (hyperScrapeInit business_type location max_results).isProceed = true
      ∧ (turboScrapeInit business_type location).isProceed = true :=
  fun _ _ _ => ⟨rfl, rfl⟩

/-- Claim C6 (counterexample): the names Haywire and Haywire Restaurant are
in substring relation after normalization, but their length ratio 7/18 does
not exceed 0.7, so the duplicate-removal pass keeps both listings instead
of only the first-discovered one. -/
theorem C6_haywire_pair_both_kept :
    removeDuplicates
        [{ name := "Haywire" }, { name := "Haywire Restaurant" }]
      = [{ name := "Haywire" }, { name := "Haywire Restaurant" }]
    ∧ isSubstr "haywire" "haywire restaurant" = true
    ∧ ¬ 10 * min ("haywire" : String).length ("haywire restaurant" : String).length
        > 7 * max ("haywire" : String).length ("haywire restaurant" : String).length := by
  refine ⟨by decide, by decide, by decide⟩

/-- Reduction of one duplicate-removal step on an explicit state pair. -/
theorem dedupStep_eq (seen : List String) (kept : List BusinessData)
    (b : BusinessData) :
    dedupStep (seen, kept) b =
      if seen.contains (dedupNormName b) = true then (seen, kept)
      else if (seen.any
          fun existing => similarCollide (dedupNormName b) existing) = true
        then (seen, kept)
      else (seen ++ [dedupNormName b], kept ++ [b]) := rfl

/-- Fold invariant of the duplicate-removal loop: the seen_names component
holds exactly the normalized names of the businesses kept so far, in
order. -/
theorem dedupFold_seen_eq_kept_names (bs : List BusinessData) :
    ∀ (seen : List String) (kept : List BusinessData),
      seen = kept.map dedupNormName →
      (bs.foldl dedupStep (seen, kept)).1
        = ((bs.foldl dedupStep (seen, kept)).2).map dedupNormName := by
  induction bs with
  | nil =>
    intro seen kept h
    simpa using h
  | cons b rest ih =>
    intro seen kept h
    rw [List.foldl_cons, dedupStep_eq]
    by_cases h1 : seen.contains (dedupNormName b) = true
    · rw [if_pos h1]
      exact ih seen kept h
    · rw [if_neg h1]
      by_cases h2 : (seen.any
          fun existing => similarCollide (dedupNormName b) existing) = true
      · rw [if_pos h2]
        exact ih seen kept h
      · rw [if_neg h2]
        apply ih
        simp [h]

/-- The duplicate-removal loop only appends to the kept list, and the
appended businesses come from the processed list in order. -/
theorem dedupFold_kept_extends (bs : List BusinessData) :
    ∀ (seen : List String) (kept : List BusinessData),
      ∃ t, (bs.foldl dedupStep (seen, kept)).2 = kept ++ t
        ∧ t.Sublist bs := by
  induction bs with
  | nil =>
    intro seen kept
    exact ⟨[], by simp, List.nil_sublist _⟩
  | cons b rest ih =>
    intro seen kept
    rw [List.foldl_cons, dedupStep_eq]
    by_cases h1 : seen.contains (dedupNormName b) = true
    · rw [if_pos h1]
      obtain ⟨t, ht, hs⟩ := ih seen kept
      exact ⟨t, ht, hs.cons b⟩
    · rw [if_neg h1]
      by_cases h2 : (seen.any
          fun existing => similarCollide (dedupNormName b) existing) = true
      · rw [if_pos h2]
        obtain ⟨t, ht, hs⟩ := ih seen kept
        exact ⟨t, ht, hs.cons b⟩
      · rw [if_neg h2]
        obtain ⟨t, ht, hs⟩ := ih (seen ++ [dedupNormName b]) (kept ++ [b])
        refine ⟨b :: t, ?_, hs.cons₂ b⟩
        rw [ht, List.append_assoc]
        rfl

/-- Appending one more business to the collected list keeps it exactly when
its normalized name neither equals nor similarity-collides with any
already-kept lead's normalized name. -/
theorem dedup_snoc (bs : List BusinessData) (b : BusinessData) :
    removeDuplicates (bs ++ [b]) =
      if ((removeDuplicates bs).map dedupNormName).contains
            (dedupNormName b) = true
          ∨ ((removeDuplicates bs).map dedupNormName).any
            (fun existing => similarCollide (dedupNormName b) existing)
            = true
      then removeDuplicates bs
      else removeDuplicates bs ++ [b] := by
  have hseen := dedupFold_seen_eq_kept_names bs [] [] (by simp)
  unfold removeDuplicates
  rw [List.foldl_append]
  rcases hsk : bs.foldl dedupStep ([], []) with ⟨s, k⟩
  rw [hsk] at hseen
  have hs2 : s = List.map dedupNormName k := hseen
  subst hs2
  simp only [List.foldl_cons, List.foldl_nil]
  rw [dedupStep_eq]
  by_cases h1 : (List.map dedupNormName k).contains (dedupNormName b) = true
  · rw [if_pos h1, if_pos (Or.inl h1)]
  · rw [if_neg h1]
    by_cases h2 : ((List.map dedupNormName k).any
        fun existing => similarCollide (dedupNormName b) existing) = true
    · rw [if_pos h2, if_pos (Or.inr h2)]
    · rw [if_neg h2, if_neg (fun hor => hor.elim h1 h2)]

/-- Claim C6 (amended): over an arbitrary collected list, the
duplicate-removal pass removes a later lead exactly when its normalized
(lower-cased, stripped) name equals a kept lead's normalized name, or one
of the two names is a substring of the other and the shorter-to-longer
length ratio exceeds 0.7, always keeping the first-seen lead: the output is
a subsequence of the input, and extending the input by one business keeps
that business precisely when it collides with no already-kept lead.  On a
pair this specializes to dropping the second business exactly on a
collision with the first; for the Haywire / Haywire Restaurant pair the
ratio is 7/18, below the threshold, so both survive. -/
theorem C6_dedup_exactly_on_kept_collision :
    (∀ bs : List BusinessData, (removeDuplicates bs).Sublist bs)
    ∧ (∀ (bs : List BusinessData) (b : BusinessData),
      removeDuplicates (bs ++ [b]) =
        if ((removeDuplicates bs).map dedupNormName).contains
              (dedupNormName b) = true
            ∨ ((removeDuplicates bs).map dedupNormName).any
              (fun existing => similarCollide (dedupNormName b) existing)
              = true
        then removeDuplicates bs
        else removeDuplicates bs ++ [b])
    ∧ (∀ a b : BusinessData,
      removeDuplicates [a, b] =
        if dedupNormName b = dedupNormName a
            ∨ similarCollide (dedupNormName b) (dedupNormName a) = true
        then [a] else [a, b]) := by
  refine ⟨?_, dedup_snoc, ?_⟩
  · intro bs
    obtain ⟨t, ht, hs⟩ := dedupFold_kept_extends bs [] []
    unfold removeDuplicates
    rw [ht]
    simpa using hs
  · intro a b
    simp only [dedupNormName]
    by_cases h1 : pyStrip (pyLower b.name) = pyStrip (pyLower a.name)
    · simp [removeDuplicates, dedupStep, h1]
    · by_cases h2 : similarCollide (pyStrip (pyLower b.name))
          (pyStrip (pyLower a.name)) = true
      · simp [removeDuplicates, dedupStep, h1, h2]
      · simp [removeDuplicates, dedupStep, h1, h2]

/-- Claim C7: the companion-website scrapers fail soft.  Both variants
return the all-empty dict on an empty URL, on a raised fetch (timeout, DNS
failure, malformed URL) and on any non-200 status, for every possible
cache state and extraction outcome; being total functions of the observed
fetch outcome, they propagate no exception. -/
theorem C7_website_scrape_fails_soft :
    ∀ (url : String) (cached : Option WebsiteData) (fetch : FetchResult)
      (extract : String → WebsiteData),
      (url = "" →
        scrapeWebsiteHyper url cached fetch extract = emptyWebsiteData
        ∧ scrapeWebsiteTurbo url cached fetch extract = emptyWebsiteData)
      ∧ (cached = none → fetch = FetchResult.failure →
        scrapeWebsiteHyper url cached fetch extract = emptyWebsiteData
        ∧ scrapeWebsiteTurbo url cached fetch extract = emptyWebsiteData)
      ∧ (∀ status body, cached = none → status ≠ 200 →
        fetch = FetchResult.response status body →
        scrapeWebsiteHyper url cached fetch extract = emptyWebsiteData
        ∧ scrapeWebsiteTurbo url cached fetch extract = emptyWebsiteData) := by
  intro url cached fetch extract
  refine ⟨?_, ?_, ?_⟩
  · intro hu
    subst hu
    exact ⟨by simp [scrapeWebsiteHyper], by simp [scrapeWebsiteTurbo]⟩
  · intro hc hf
    subst hc
    subst hf
    by_cases hu : url = "" <;>
      exact ⟨by simp [scrapeWebsiteHyper, hu], by simp [scrapeWebsiteTurbo, hu]⟩
  · intro status body hc hs hf
    subst hc
    subst hf
    by_cases hu : url = "" <;>
      exact ⟨by simp [scrapeWebsiteHyper, hu, hs],
             by simp [scrapeWebsiteTurbo, hu, hs]⟩

/-- Witness for claim C7 at concrete inputs: an HTTP 500 response on a
cache miss yields the all-empty dict even under an extraction that would
have produced an email. -/
theorem C7_fails_soft_witness :
    scrapeWebsiteHyper "https://joespizza.com" none
        (FetchResult.response 500 "<html>")
        (fun _ => { email := "info@joespizza.com" }) = emptyWebsiteData
    ∧ scrapeWebsiteTurbo "" none FetchResult.failure
        (fun _ => { email := "info@joespizza.com" }) = emptyWebsiteData :=
  ⟨((C7_website_scrape_fails_soft "https://joespizza.com" none
      (FetchResult.response 500 "<html>")
      (fun _ => { email := "info@joespizza.com" })).2.2 500 "<html>"
      rfl (by decide) rfl).1,
   ((C7_website_scrape_fails_soft "" none FetchResult.failure
      (fun _ => { email := "info@joespizza.com" })).1 rfl).2⟩

/-- A successful prefix strip implies every pattern character occurs in the
scanned list. -/
theorem stripPfx_mem {p s r : List Char} (h : stripPfx p s = some r) :
    ∀ c ∈ p, c ∈ s := by
  induction p generalizing s with
  | nil => intro c hc; cases hc
  | cons q qs ih =>
    cases s with
    | nil => simp [stripPfx] at h
    | cons c ss =>
      by_cases hqc : q = c
      · subst hqc
        simp only [stripPfx, if_pos rfl] at h
        intro d hd
        rcases List.mem_cons.mp hd with hdq | hdqs
        · exact hdq ▸ List.mem_cons_self _ _
        · exact List.mem_cons_of_mem _ (ih h d hdqs)
      · simp [stripPfx, hqc] at h

/-- A list missing some pattern character is returned unchanged by the
replacement scanner. -/
theorem replaceGo_no_occurrence {pat rep : List Char} {d : Char}
    (hd : d ∈ pat) : ∀ s : List Char, d ∉ s → replaceGo pat rep 0 s = s := by
  intro s
  induction s with
  | nil => intro _; rfl
  | cons c rest ih =>
    intro hs
    have hnone : stripPfx pat (c :: rest) = none := by
      cases hsp : stripPfx pat (c :: rest) with
      | none => rfl
      | some r => exact absurd (stripPfx_mem hsp d hd) hs
    simp only [replaceGo, hnone]
    have : d ∉ rest := fun hmem => hs (List.mem_cons_of_mem c hmem)
    rw [ih this]

/-- Skipping exactly the length of a leading block lands the scanner on the
tail. -/
theorem replaceGo_skip_block (pat rep : List Char) (block t : List Char) :
    replaceGo pat rep block.length (block ++ t) = replaceGo pat rep 0 t := by
  induction block with
  | nil => simp
  | cons c rest ih => simpa [replaceGo] using ih

/-- Scanner step on a position where the pattern does not start. -/
theorem replaceGo_step_none (pat rep : List Char) (c : Char)
    (rest : List Char) (h : stripPfx pat (c :: rest) = none) :
    replaceGo pat rep 0 (c :: rest) = c :: replaceGo pat rep 0 rest := by
  simp [replaceGo, h]

/-- Scanner step on a position where the pattern starts. -/
theorem replaceGo_step_some (pat rep : List Char) (c : Char)
    (rest rem : List Char) (h : stripPfx pat (c :: rest) = some rem) :
    replaceGo pat rep 0 (c :: rest)
      = rep ++ replaceGo pat rep (pat.length - 1) rest := by
  simp [replaceGo, h]

/-- The scanner copies a whole leading block unchanged when the pattern
starts at none of its positions (a hypothesis stated as an executable
check so that concrete instances close by rfl). -/
theorem replaceGo_steps_block (pat rep block t : List Char)
    (h : (List.range block.length).all
        (fun i => (stripPfx pat (block.drop i ++ t)).isNone) = true) :
    replaceGo pat rep 0 (block ++ t) = block ++ replaceGo pat rep 0 t := by
  induction block with
  | nil => simp
  | cons c rest ih =>
    have hall := List.all_eq_true.mp h
    have h0 : stripPfx pat (c :: (rest ++ t)) = none := by
      have := hall 0 (by simp)
      simpa [Option.isNone_iff_eq_none] using this
    rw [List.cons_append, replaceGo_step_none pat rep c _ h0]
    have hrest : (List.range rest.length).all
        (fun i => (stripPfx pat (rest.drop i ++ t)).isNone) = true := by
      refine List.all_eq_true.mpr ?_
      intro i hi
      have := hall (i + 1) (by simpa using Nat.succ_lt_succ (List.mem_range.mp hi))
      simpa using this
    rw [ih hrest]
    rfl

/-- Replacing twitter.com by x.com in a list that starts with the host
twitter.com rewrites the host and leaves the dot-free tail untouched. -/
theorem replace_host_tw (t : List Char) (ht : ('.' : Char) ∉ t) :
    replaceGo "twitter.com".data "x.com".data 0 ("twitter.com".data ++ t)
      = "x.com".data ++ t := by
  rw [show ("twitter.com".data ++ t : List Char)
        = 't' :: ("witter.com".data ++ t) from rfl]
  rw [replaceGo_step_some "twitter.com".data "x.com".data 't'
        ("witter.com".data ++ t) t rfl]
  rw [show ("twitter.com".data : List Char).length - 1
        = ("witter.com".data : List Char).length from rfl]
  rw [replaceGo_skip_block "twitter.com".data "x.com".data "witter.com".data t]
  rw [replaceGo_no_occurrence (show ('.' : Char) ∈ "twitter.com".data by decide)
        t ht]

/-- Replacing twitter.com by x.com leaves a list that starts with the host
x.com and continues dot-free entirely unchanged. -/
theorem replace_host_x (t : List Char) (ht : ('.' : Char) ∉ t) :
    replaceGo "twitter.com".data "x.com".data 0 ("x.com".data ++ t)
      = "x.com".data ++ t := by
  rw [replaceGo_steps_block "twitter.com".data "x.com".data "x.com".data t rfl]
  rw [replaceGo_no_occurrence (show ('.' : Char) ∈ "twitter.com".data by decide)
        t ht]

/-- Host rewriting through any scheme and optional www prefix, host
twitter.com. -/
theorem replace_full_tw (secure www : Bool) (t : List Char)
    (ht : ('.' : Char) ∉ t) :
    replaceGo "twitter.com".data "x.com".data 0
        ((if secure then "https://".data else "http://".data)
          ++ ((if www then "www.".data else []) ++ ("twitter.com".data ++ t)))
      = (if secure then "https://".data else "http://".data)
          ++ ((if www then "www.".data else []) ++ ("x.com".data ++ t)) := by
  have hhost := replace_host_tw t ht
  cases secure <;> cases www
  · show replaceGo "twitter.com".data "x.com".data 0
        ("http://".data ++ ("twitter.com".data ++ t))
      = "http://".data ++ ("x.com".data ++ t)
    rw [replaceGo_steps_block "twitter.com".data "x.com".data "http://".data ("twitter.com".data ++ t) rfl,
        hhost]
  · show replaceGo "twitter.com".data "x.com".data 0
        ("http://".data ++ ("www.".data ++ ("twitter.com".data ++ t)))
      = "http://".data ++ ("www.".data ++ ("x.com".data ++ t))
    rw [replaceGo_steps_block "twitter.com".data "x.com".data "http://".data
          ("www.".data ++ ("twitter.com".data ++ t)) rfl,
        replaceGo_steps_block "twitter.com".data "x.com".data "www.".data ("twitter.com".data ++ t) rfl,
        hhost]
  · show replaceGo "twitter.com".data "x.com".data 0
        ("https://".data ++ ("twitter.com".data ++ t))
      = "https://".data ++ ("x.com".data ++ t)
    rw [replaceGo_steps_block "twitter.com".data "x.com".data "https://".data ("twitter.com".data ++ t) rfl,
        hhost]
  · show replaceGo "twitter.com".data "x.com".data 0
        ("https://".data ++ ("www.".data ++ ("twitter.com".data ++ t)))
      = "https://".data ++ ("www.".data ++ ("x.com".data ++ t))
    rw [replaceGo_steps_block "twitter.com".data "x.com".data "https://".data
          ("www.".data ++ ("twitter.com".data ++ t)) rfl,
        replaceGo_steps_block "twitter.com".data "x.com".data "www.".data ("twitter.com".data ++ t) rfl,
        hhost]

/-- A URL on host x.com passes through the replacement untouched, for any
scheme and optional www prefix. -/
theorem replace_full_x (secure www : Bool) (t : List Char)
    (ht : ('.' : Char) ∉ t) :
    replaceGo "twitter.com".data "x.com".data 0
        ((if secure then "https://".data else "http://".data)
          ++ ((if www then "www.".data else []) ++ ("x.com".data ++ t)))
      = (if secure then "https://".data else "http://".data)
          ++ ((if www then "www.".data else []) ++ ("x.com".data ++ t)) := by
  have hhost := replace_host_x t ht
  cases secure <;> cases www
  · show replaceGo "twitter.com".data "x.com".data 0
        ("http://".data ++ ("x.com".data ++ t))
      = "http://".data ++ ("x.com".data ++ t)
    rw [replaceGo_steps_block "twitter.com".data "x.com".data "http://".data ("x.com".data ++ t) rfl, hhost]
  · show replaceGo "twitter.com".data "x.com".data 0
        ("http://".data ++ ("www.".data ++ ("x.com".data ++ t)))
      = "http://".data ++ ("www.".data ++ ("x.com".data ++ t))
    rw [replaceGo_steps_block "twitter.com".data "x.com".data "http://".data
          ("www.".data ++ ("x.com".data ++ t)) rfl,
        replaceGo_steps_block "twitter.com".data "x.com".data "www.".data ("x.com".data ++ t) rfl, hhost]
  · show replaceGo "twitter.com".data "x.com".data 0
        ("https://".data ++ ("x.com".data ++ t))
      = "https://".data ++ ("x.com".data ++ t)
    rw [replaceGo_steps_block "twitter.com".data "x.com".data "https://".data ("x.com".data ++ t) rfl, hhost]
  · show replaceGo "twitter.com".data "x.com".data 0
        ("https://".data ++ ("www.".data ++ ("x.com".data ++ t)))
      = "https://".data ++ ("www.".data ++ ("x.com".data ++ t))
    rw [replaceGo_steps_block "twitter.com".data "x.com".data "https://".data
          ("www.".data ++ ("x.com".data ++ t)) rfl,
        replaceGo_steps_block "twitter.com".data "x.com".data "www.".data ("x.com".data ++ t) rfl, hhost]

/-- Claim C8: for every URL of the shape matched by the twitter regex, the
canonicalization match.replace("twitter.com", "x.com") rewrites a literal
twitter.com host to x.com with the scheme, the optional www prefix, the
slash and the handle all preserved, and leaves a URL already on host x.com
unchanged.  The hypothesis that the handle contains no dot is guaranteed by
the regex character class [a-zA-Z0-9_]. -/
theorem C8_twitter_host_rewritten_path_preserved :
    ∀ (secure www slash : Bool) (handle : List Char),
      ('.' : Char) ∉ handle →
      pyReplace (renderTwitterURL secure www true slash handle)
          "twitter.com".data "x.com".data
        = renderTwitterURL secure www false slash handle
      ∧ pyReplace (renderTwitterURL secure www false slash handle)
          "twitter.com".data "x.com".data
        = renderTwitterURL secure www false slash handle := by
  intro secure www slash handle hdot
  have htail : ('.' : Char) ∉
      ('/' :: (handle ++ (if slash then ['/'] else []))) := by
    intro hmem
    rcases List.mem_cons.mp hmem with h | h
    · exact absurd h (by decide)
    · rcases List.mem_append.mp h with h2 | h2
      · exact hdot h2
      · cases slash
        · simp at h2
        · exact absurd (List.mem_singleton.mp h2) (by decide)
  constructor
  · exact replace_full_tw secure www _ htail
  · exact replace_full_x secure www _ htail

/-- Witness for claim C8 at a concrete handle: the twitter.com URL is
rewritten to the x.com URL and the x.com URL is left unchanged. -/
theorem C8_twitter_witness :
    pyReplace (renderTwitterURL true false true false "joespizza".data)
        "twitter.com".data "x.com".data
      = renderTwitterURL true false false false "joespizza".data
    ∧ pyReplace (renderTwitterURL true false false false "joespizza".data)
        "twitter.com".data "x.com".data
      = renderTwitterURL true false false false "joespizza".data :=
  C8_twitter_host_rewritten_path_preserved true false false "joespizza".data
    (by decide)

/-- The rendered match shape at a concrete handle agrees with the literal
URL text, host twitter.com. -/
theorem renderTwitterURL_concrete_tw :
    renderTwitterURL true false true false "joespizza".data
      = "https://twitter.com/joespizza".data := by decide

/-- The rendered match shape at a concrete handle agrees with the literal
URL text, host x.com. -/
theorem renderTwitterURL_concrete_x :
    renderTwitterURL true false false false "joespizza".data
      = "https://x.com/joespizza".data := by decide

set_option maxRecDepth 4000 in
/-- Claim C9 (counterexample): the ultimate-scraper cache keys for the
queries Coffee Shop and coffee shop over the same location and max_results
differ: get_cache_key hashes the raw, unnormalized parameter string, so the
two case-variant queries do not collide. -/
theorem C9_coffee_shop_ultimate_keys_differ :
    UltimateScraper.get_cache_key "Coffee Shop" "Austin, TX" 10
      ≠ UltimateScraper.get_cache_key "coffee shop" "Austin, TX" 10 := by
  decide

set_option maxRecDepth 4000 in
/-- Claim C9 (amended): every variant derives its query cache key as a pure
function of the raw parameters with no trimming or case-folding: distinct
business types always give distinct hyper keys (given the same location and
max_results), and the Coffee Shop / coffee shop pair yields different keys
in the hyper, turbo and ultimate variants, the last witnessed by the two
concrete MD5 digests. -/
theorem C9_cache_key_of_raw_parameters :
    (∀ (bt1 bt2 loc : String) (mr : Nat), bt1 ≠ bt2 →
      hyperMapsCacheKey bt1 loc mr ≠ hyperMapsCacheKey bt2 loc mr)
    ∧ hyperMapsCacheKey "Coffee Shop" "Austin, TX" 10
        ≠ hyperMapsCacheKey "coffee shop" "Austin, TX" 10
    ∧ turboMapsCacheKey "Coffee Shop" "Austin, TX"
        ≠ turboMapsCacheKey "coffee shop" "Austin, TX"
    ∧ UltimateScraper.get_cache_key "Coffee Shop" "Austin, TX" 10
        = "9d8aada3dd8a7bf4677bde6422a2031c"
    ∧ UltimateScraper.get_cache_key "coffee shop" "Austin, TX" 10
        = "bd1388f8694a32b3b7c96c58c6f17d88" := by
  refine ⟨?_, by decide, by decide, by decide, by decide⟩
  intro bt1 bt2 loc mr hbt h
  apply hbt
  have hd := congrArg String.data h
  simp only [hyperMapsCacheKey, String.data_append, List.append_assoc] at hd
  have h1 := List.append_cancel_left hd
  have h2 := List.append_cancel_right h1
  cases bt1
  cases bt2
  exact congrArg String.mk h2

/-- Witness for claim C9 at the concrete case-variant pair. -/
theorem C9_key_witness :
    hyperMapsCacheKey "Coffee Shop" "Austin, TX" 10
      ≠ hyperMapsCacheKey "coffee shop" "Austin, TX" 10 :=
  C9_cache_key_of_raw_parameters.1 "Coffee Shop" "coffee shop" "Austin, TX"
    10 (by decide)
